import Mathlib

/-!
Shallow embedding of the KPI backend of the operadora-bot repository
(src/backend/app.py).  The DuckDB collaborator's SQL expressions built by the
Python code (month extraction, robust numeric cast, grouping, ordering,
limiting) are embedded as executable Lean functions over lists of rows, and
the endpoint handlers are embedded as total functions returning either a
result record or an `Except.error` mirroring the raised HTTPException /
uncaught ValueError.  Monetary values are modelled as exact rationals (the
source's DOUBLE arithmetic on decimal inputs); SQL's unspecified orders
(GROUP BY output, ORDER BY ties) are resolved deterministically by
first-appearance order and a stable insertion sort, which is one admissible
refinement of the query semantics.
-/

/-! ### Generic character/list utilities -/

/-- ASCII digit test, as used by the embedded parsers. -/
def isDigitChar (c : Char) : Bool := c.isDigit

/-- Whitespace characters trimmed by SQL casts / Python `strip`. -/
def isWSChar (c : Char) : Bool := c == ' ' || c == '\t' || c == '\n' || c == '\r'

/-- Value of a digit string (most significant digit first). -/
def digitsVal (l : List Char) : Nat := l.foldl (fun a c => a * 10 + (c.toNat - 48)) 0

/-- Split a character list at every occurrence of `sep`
(the semantics of Python `str.split` / `String.splitOn` for a one-character
separator: `"a-b" ↦ ["a","b"]`, `"a--b" ↦ ["a","","b"]`, `"" ↦ [""]`). -/
def splitOnChar (sep : Char) : List Char → List (List Char)
  | [] => [[]]
  | c :: cs =>
    if c == sep then [] :: splitOnChar sep cs
    else match splitOnChar sep cs with
      | [] => [[c]]
      | g :: gs => (c :: g) :: gs

/-- Trim leading and trailing whitespace. -/
def trimWS (l : List Char) : List Char :=
  ((l.dropWhile isWSChar).reverse.dropWhile isWSChar).reverse

/-- Lower-case a string character-wise (Python `str.lower` / SQL `lower` on ASCII). -/
def lowerStr (s : String) : String := String.mk (s.toList.map Char.toLower)

/-- Upper-case a string character-wise (SQL `upper` on ASCII). -/
def upperStr (s : String) : String := String.mk (s.toList.map Char.toUpper)

/-- Does `pat` occur at the start of `l`? -/
def isStartOf (pat l : List Char) : Bool :=
  match pat, l with
  | [], _ => true
  | _ :: _, [] => false
  | p :: ps, c :: cs => p == c && isStartOf ps cs

/-- Does `pat` occur anywhere inside `l`?  (semantics of SQL `LIKE '%pat%'`
and of Python `in` on strings). -/
def containsSub (l pat : List Char) : Bool :=
  match l with
  | [] => isStartOf pat []
  | _ :: cs => isStartOf pat l || containsSub cs pat

/-- Byte-wise lexicographic strict order on character lists (the order DuckDB
and Python use on the pure-ASCII strings handled here). -/
def lexLt : List Char → List Char → Bool
  | [], [] => false
  | [], _ :: _ => true
  | _ :: _, [] => false
  | c :: cs, d :: ds =>
    if c.toNat < d.toNat then true
    else if d.toNat < c.toNat then false
    else lexLt cs ds

/-- Lexicographic strict order on strings. -/
def strLt (a b : String) : Bool := lexLt a.toList b.toList

/-- Insert `x` into `l` in front of the first element `y` with `le x y`
(stable insertion step). -/
def insB {α : Type} (le : α → α → Bool) (x : α) : List α → List α
  | [] => [x]
  | y :: ys => if le x y then x :: y :: ys else y :: insB le x ys

/-- Stable insertion sort by the boolean relation `le`; embeds SQL `ORDER BY`
and Python `list.sort`/`sorted` (both stable) once a deterministic input
order is fixed. -/
def sortB {α : Type} (le : α → α → Bool) : List α → List α
  | [] => []
  | x :: xs => insB le x (sortB le xs)

/-- Index of the first occurrence of `x`, counting from `k`. -/
def idxFrom (x : String) : List String → Nat → Option Nat
  | [], _ => none
  | y :: ys, k => if y == x then some k else idxFrom x ys (k + 1)

/-- Python `order.index(x) if x in order else 999` (the sort key of
`kpi_sin_por_faixa`). -/
def order_key (order : List String) (x : String) : Nat := (idxFrom x order 0).getD 999

/-- Is `l` a non-empty string of digits? -/
def allDigits (l : List Char) : Bool := !l.isEmpty && l.all isDigitChar

/-- Python `int(...)` on the (already pre-trimmed) bracket pieces: strips
whitespace, then requires a non-empty digit string. -/
def toNatQ (l : List Char) : Option Nat :=
  let t := trimWS l
  if allDigits t then some (digitsVal t) else none

/-! ### Dates: the `month_expr` SQL expression of app.py -/

/-- A calendar date as produced by the embedded date parsers. -/
structure SDate where
  y : Nat
  m : Nat
  d : Nat
deriving Repr, DecidableEq

/-- Gregorian leap-year rule. -/
def isLeap (y : Nat) : Bool := (y % 4 == 0 && y % 100 != 0) || y % 400 == 0

/-- Days in a month (with the leap rule for February). -/
def daysInMonth (y m : Nat) : Nat :=
  if m == 2 then (if isLeap y then 29 else 28)
  else if m == 4 || m == 6 || m == 9 || m == 11 then 30 else 31

/-- Build a valid date or fail; `TRY_STRPTIME` rejects out-of-range fields,
and the year is bounded by the 4-digit formats below. -/
def mkDate (y m d : Nat) : Option SDate :=
  if 1 ≤ m ∧ m ≤ 12 ∧ 1 ≤ d ∧ d ≤ daysInMonth y m ∧ y ≤ 9999 then some ⟨y, m, d⟩ else none

/-- `TRY_STRPTIME(s, '%Y<sep>%m<sep>%d')`: three digit groups (year at most 4
digits, month/day at most 2), all of `s` consumed, range-checked. -/
def tryYMD (s : String) (sep : Char) : Option SDate :=
  match splitOnChar sep s.toList with
  | [ys, ms, ds] =>
    if allDigits ys && decide (ys.length ≤ 4) && allDigits ms && decide (ms.length ≤ 2)
        && allDigits ds && decide (ds.length ≤ 2)
    then mkDate (digitsVal ys) (digitsVal ms) (digitsVal ds) else none
  | _ => none

/-- `TRY_STRPTIME(s, '%d<sep>%m<sep>%Y')`. -/
def tryDMY (s : String) (sep : Char) : Option SDate :=
  match splitOnChar sep s.toList with
  | [ds, ms, ys] =>
    if allDigits ds && decide (ds.length ≤ 2) && allDigits ms && decide (ms.length ≤ 2)
        && allDigits ys && decide (ys.length ≤ 4)
    then mkDate (digitsVal ys) (digitsVal ms) (digitsVal ds) else none
  | _ => none

/-- `TRY_STRPTIME(s, '%Y%m%d')`: exactly eight digits. -/
def tryCompact (s : String) : Option SDate :=
  let l := s.toList
  if l.length == 8 && allDigits l then
    mkDate (digitsVal (l.take 4)) (digitsVal ((l.take 6).drop 4)) (digitsVal (l.drop 6))
  else none

/-- `CAST(s AS DATE)`: the ISO form accepted by DuckDB's date cast
(whitespace-trimmed `YYYY-MM-DD`). -/
def castAsDate (s : String) : Option SDate :=
  match splitOnChar '-' (trimWS s.toList) with
  | [ys, ms, ds] =>
    if allDigits ys && decide (ys.length ≤ 4) && allDigits ms && decide (ms.length ≤ 2)
        && allDigits ds && decide (ds.length ≤ 2)
    then mkDate (digitsVal ys) (digitsVal ms) (digitsVal ds) else none
  | _ => none

/-- The `COALESCE` chain of `month_expr` in app.py, in source order:
`%Y-%m-%d`, `%d/%m/%Y`, `%d-%m-%Y`, `%Y%m%d`, `%Y/%m/%d`, then `CAST AS DATE`. -/
def parse_date_raw (s : String) : Option SDate :=
  match tryYMD s '-' with
  | some d => some d
  | none =>
    match tryDMY s '/' with
    | some d => some d
    | none =>
      match tryDMY s '-' with
      | some d => some d
      | none =>
        match tryCompact s with
        | some d => some d
        | none =>
          match tryYMD s '/' with
          | some d => some d
          | none => castAsDate s

/-- Decimal digit character of `n % 10`. -/
def digitChar (n : Nat) : Char := Char.ofNat (48 + n % 10)

/-- Zero-padded two-digit rendering (`strftime '%m'`; faithful for `n ≤ 99`,
and month values are at most 12). -/
def pad2 (n : Nat) : String := String.mk [digitChar (n / 10), digitChar n]

/-- Zero-padded four-digit rendering (`strftime '%Y'`; faithful for
`n ≤ 9999`, which `mkDate` guarantees). -/
def pad4 (n : Nat) : String :=
  String.mk [digitChar (n / 1000), digitChar (n / 100), digitChar (n / 10), digitChar n]

/-- The `month_expr` SQL expression of app.py applied to a raw column value:
`strftime('%Y-%m', COALESCE(TRY_STRPTIME(...), ..., CAST(... AS DATE)))`,
`none` when no format matches (the row then never equals a competency). -/
def month_expr (raw : String) : Option String :=
  (parse_date_raw raw).map (fun d => pad4 d.y ++ "-" ++ pad2 d.m)

/-- The competency-format regular expression `^\d{4}-\d{2}$` from the spec. -/
def valid_comp (s : String) : Bool :=
  match s.toList with
  | [a, b, c, d, e, f, g] =>
    isDigitChar a && isDigitChar b && isDigitChar c && isDigitChar d &&
      (e == '-') && isDigitChar f && isDigitChar g
  | _ => false

/-- Python `datetime.strptime(s, "%Y-%m")` as used by `kpi_sin_por_faixa`:
year 1–9999 (up to 4 digits), month 1–12 (up to 2 digits). -/
def strptime_ym (s : String) : Option (Nat × Nat) :=
  match splitOnChar '-' s.toList with
  | [ys, ms] =>
    if allDigits ys && decide (ys.length ≤ 4) && allDigits ms && decide (ms.length ≤ 2) then
      let y := digitsVal ys
      let m := digitsVal ms
      if 1 ≤ y ∧ 1 ≤ m ∧ m ≤ 12 then some (y, m) else none
    else none
  | _ => none

/-! ### Numbers: the `numeric_expr` SQL expression of app.py -/

/-- Remove every (non-overlapping, left-to-right) occurrence of `"R$"`
(SQL `REPLACE(col, 'R$', '')`). -/
def removeRS : List Char → List Char
  | 'R' :: '$' :: cs => removeRS cs
  | c :: cs => c :: removeRS cs
  | [] => []

/-- The sanitizing expression of `numeric_expr`:
`REPLACE(REPLACE(REPLACE(REPLACE(col,'R$',''),' ',''),'.',''),',','.')`. -/
def sanitize_money (s : String) : String :=
  String.mk
    ((((removeRS s.toList).filter (fun c => c != ' ')).filter (fun c => c != '.')).map
      (fun c => if c == ',' then '.' else c))

/-- Apply an optional leading minus sign. -/
def sgn (neg : Bool) (q : ℚ) : ℚ := if neg then -q else q

/-- `TRY_CAST(s AS DOUBLE)` on plain decimal literals: optional sign, integer
part, optional fractional part, surrounding whitespace allowed; exponent and
special forms are not modelled (no data path of the repository produces
them).  The double is modelled exactly as a rational. -/
def tryCastDouble (s : String) : Option ℚ :=
  let cs := trimWS s.toList
  let (neg, cs1) :=
    match cs with
    | '-' :: r => (true, r)
    | '+' :: r => (false, r)
    | r => (false, r)
  let ip := cs1.takeWhile isDigitChar
  let r1 := cs1.dropWhile isDigitChar
  match r1 with
  | [] => if ip.isEmpty then none else some (sgn neg (digitsVal ip : ℚ))
  | '.' :: r2 =>
    let fp := r2.takeWhile isDigitChar
    let r3 := r2.dropWhile isDigitChar
    if r3.isEmpty && !(ip.isEmpty && fp.isEmpty) then
      some (sgn neg ((digitsVal ip : ℚ) + (digitsVal fp : ℚ) / (10 : ℚ) ^ fp.length))
    else none
  | _ => none

/-- The `numeric_expr` SQL expression of app.py applied to a raw column
value: `COALESCE(TRY_CAST(col AS DOUBLE), TRY_CAST(<sanitized> AS DOUBLE), 0)`. -/
def numeric_expr (s : String) : ℚ :=
  match tryCastDouble s with
  | some v => v
  | none =>
    match tryCastDouble (sanitize_money s) with
    | some v => v
    | none => 0

/-! ### Column resolution (`find_col` of app.py) -/

/-- `find_col` of app.py: the first non-empty candidate whose lower-casing is
among the lower-cased available columns; the candidate's own spelling is
returned.  There is no other matching tier in the source. -/
def find_col (cols : List String) (candidates : List String) : Option String :=
  let cl := cols.map lowerStr
  candidates.findSome? (fun cand =>
    if cand != "" && cl.contains (lowerStr cand) then some cand else none)

/-- Strip to `[a-z0-9_]` after lower-casing (the spec's tier-2 normalization). -/
def norm_az (s : String) : String :=
  String.mk ((lowerStr s).toList.filter (fun c => c.isLower || c.isDigit || c == '_'))

/-- Modelled from the spec: the three-tier column resolver of spec §4.1
(exact case-insensitive equality, then normalized equality, then substring
containment in either direction, each tier tried across all candidates
before the next).  This definition exists only to be compared with the
source's `find_col`. -/
def find_col_spec (cols : List String) (candidates : List String) : Option String :=
  match candidates.findSome? (fun cand =>
      cols.find? (fun col => lowerStr col == lowerStr cand)) with
  | some col => some col
  | none =>
    match candidates.findSome? (fun cand =>
        cols.find? (fun col => norm_az col == norm_az cand)) with
    | some col => some col
    | none =>
      candidates.findSome? (fun cand =>
        cols.find? (fun col =>
          containsSub (lowerStr col).toList (lowerStr cand).toList ||
            containsSub (lowerStr cand).toList (lowerStr col).toList))

/-! ### Active-beneficiary clause (`status_ativo_clause` of app.py) -/

/-- `status_ativo_clause` of app.py evaluated on a status value:
`upper(col) LIKE '%ATIV%' OR col IN ('1','S','SIM','s','sim','true','TRUE','t','T')`. -/
def status_ativo_clause (v : String) : Bool :=
  containsSub (upperStr v).toList ("ATIV".toList) ||
    ["1", "S", "SIM", "s", "sim", "true", "TRUE", "t", "T"].contains v

/-! ### Row model (the resolved physical columns the KPI queries read) -/

/-- A row of the `conta` table restricted to the resolved columns used by the
embedded queries: competency date, claim value, beneficiary id, provider id. -/
structure ContaRow where
  data : String
  valor : String
  id_benef : String
  id_prest : String
deriving Repr, DecidableEq

/-- A row of the `mensalidade` table: competency date, premium value,
beneficiary id. -/
structure MensRow where
  data : String
  valor : String
  id_benef : String
deriving Repr, DecidableEq

/-- A row of the `beneficiario` table: key and birth date. -/
structure BenefRow where
  id : String
  nasc : String
deriving Repr, DecidableEq

/-- A row of the `prestador` table: key and display name. -/
structure PrestRow where
  id : String
  nome : String
deriving Repr, DecidableEq

/-! ### Monthly aggregates shared by the sinistralidade queries -/

/-- `SELECT SUM(numeric_expr) FROM conta WHERE month_expr = comp`
(`SUM` of no rows is `NULL`, coalesced to 0 by the handlers — the empty sum). -/
def custo_mes (comp : String) (contas : List ContaRow) : ℚ :=
  ((contas.filter (fun r => month_expr r.data == some comp)).map
    (fun r => numeric_expr r.valor)).sum

/-- `SELECT SUM(numeric_expr) FROM mensalidade WHERE month_expr = comp`. -/
def receita_mes (comp : String) (mens : List MensRow) : ℚ :=
  ((mens.filter (fun r => month_expr r.data == some comp)).map
    (fun r => numeric_expr r.valor)).sum

/-- Is the month of a raw date value inside the month window `ms`? -/
def in_months (ms : List String) (raw : String) : Bool :=
  match month_expr raw with
  | some m => ms.contains m
  | none => false

/-- Spec-side window aggregate `claims(W)`: total claim value of the rows
whose competency month lies in the window. -/
def claims_win (ms : List String) (contas : List ContaRow) : ℚ :=
  ((contas.filter (fun r => in_months ms r.data)).map (fun r => numeric_expr r.valor)).sum

/-- Spec-side window aggregate `premium(W)`. -/
def premium_win (ms : List String) (mens : List MensRow) : ℚ :=
  ((mens.filter (fun r => in_months ms r.data)).map (fun r => numeric_expr r.valor)).sum

/-- Modelled from the spec: `LossRatio(W)` of spec §4.5 — the aggregate ratio
over a window, null when the premium total is zero. -/
def lossRatio_spec (ms : List String) (contas : List ContaRow) (mens : List MensRow) :
    Option ℚ :=
  if premium_win ms mens = 0 then none else some (claims_win ms contas / premium_win ms mens)

/-- The distinct non-null competency months of `conta` and `mensalidade`
(the key set of the `FULL OUTER JOIN` of the two grouped CTEs), in
first-appearance order. -/
def month_keys (contas : List ContaRow) (mens : List MensRow) : List String :=
  (contas.filterMap (fun r => month_expr r.data) ++
    mens.filterMap (fun r => month_expr r.data)).dedup

/-- The joined month series ordered `DESC` (lexicographic on `YYYY-MM` keys,
which is chronological). -/
def monthsDesc (contas : List ContaRow) (mens : List MensRow) : List String :=
  sortB (fun a b => !(strLt a b)) (month_keys contas mens)

/-- The months retained by `ORDER BY mes DESC LIMIT n` in `kpi_sin_media`. -/
def selected_months (n : Nat) (contas : List ContaRow) (mens : List MensRow) : List String :=
  (monthsDesc contas mens).take n

/-- SQL `GROUP BY` key/sum aggregation over `(key, value)` pairs, keys in
first-appearance order (a deterministic refinement of the unspecified
`GROUP BY` output order). -/
def group_sum (entries : List (String × ℚ)) : List (String × ℚ) :=
  ((entries.map Prod.fst).dedup).map
    (fun k => (k, ((entries.filter (fun e => e.1 == k)).map Prod.snd).sum))

/-! ### KPI: /kpi/sinistralidade/diferenca -/

/-- Response of `kpi_sin_diferenca`. -/
structure DiferencaOut where
  competencia : String
  custo : ℚ
  receita : ℚ
  diferenca : ℚ
  sinistralidade : Option ℚ
deriving Repr, DecidableEq

/-- `kpi_sin_diferenca` of app.py: month totals for the given competency
string (no format validation happens anywhere in the handler), difference,
and ratio `custo/receita` null when `receita = 0`. -/
def kpi_sin_diferenca (competencia : String) (contas : List ContaRow) (mens : List MensRow) :
    DiferencaOut :=
  { competencia := competencia
    custo := custo_mes competencia contas
    receita := receita_mes competencia mens
    diferenca := receita_mes competencia mens - custo_mes competencia contas
    sinistralidade :=
      if receita_mes competencia mens ≠ 0 then
        some (custo_mes competencia contas / receita_mes competencia mens)
      else none }

/-! ### KPI: /kpi/sinistralidade/ultima -/

/-- Response of `kpi_sin_ultima`. -/
structure UltimaOut where
  competencia : String
  custo : ℚ
  receita : ℚ
  sinistralidade : Option ℚ
  observacao : Option String
deriving Repr, DecidableEq

/-- `kpi_sin_ultima` of app.py: the most recent month of the joined series;
HTTP 404 when the series is empty. -/
def kpi_sin_ultima (contas : List ContaRow) (mens : List MensRow) : Except String UltimaOut :=
  match (monthsDesc contas mens).head? with
  | none => Except.error "Sem dados para calcular sinistralidade."
  | some mes =>
    Except.ok
      { competencia := mes
        custo := custo_mes mes contas
        receita := receita_mes mes mens
        sinistralidade :=
          if receita_mes mes mens ≠ 0 then some (custo_mes mes contas / receita_mes mes mens)
          else none
        observacao :=
          if receita_mes mes mens ≠ 0 then none
          else some "Receita igual a 0 nesta competência; sinistralidade indefinida." }

/-! ### KPI: /kpi/sinistralidade/media -/

/-- One month of the series returned by `kpi_sin_media`. -/
structure SerieItem where
  competencia : String
  custo : ℚ
  receita : ℚ
  sinistralidade : Option ℚ
deriving Repr, DecidableEq

/-- Response of `kpi_sin_media`. -/
structure MediaOut where
  meses_considerados : Nat
  media_sinistralidade_agregada : Option ℚ
  custo_total : ℚ
  receita_total : ℚ
  serie : List SerieItem
deriving Repr, DecidableEq

/-- `kpi_sin_media` of app.py: the last `meses` months of the joined series
(descending), per-month ratios, aggregate totals, and the aggregate ratio
`total_custo/total_receita` (null when the premium total is zero); HTTP 404
when the series is empty. -/
def kpi_sin_media (meses : Nat) (contas : List ContaRow) (mens : List MensRow) :
    Except String MediaOut :=
  let sel := selected_months meses contas mens
  if sel.isEmpty then Except.error "Sem dados para calcular a média de sinistralidade."
  else
    let serie := sel.map (fun mes =>
      { competencia := mes
        custo := custo_mes mes contas
        receita := receita_mes mes mens
        sinistralidade :=
          if receita_mes mes mens ≠ 0 then some (custo_mes mes contas / receita_mes mes mens)
          else none : SerieItem })
    let total_custo := (serie.map SerieItem.custo).sum
    let total_receita := (serie.map SerieItem.receita).sum
    Except.ok
      { meses_considerados := serie.length
        media_sinistralidade_agregada :=
          if total_receita ≠ 0 then some (total_custo / total_receita) else none
        custo_total := total_custo
        receita_total := total_receita
        serie := serie.reverse }

/-! ### KPI: /kpi/sinistralidade/por_faixa -/

/-- `parse_bins` of app.py: comma-separated `a-b` (both bounds kept) or `a+`
(unbounded), blank pieces skipped; `none` embeds the uncaught `ValueError` /
`int()` failure on malformed pieces. -/
def parse_bins (bins : String) : Option (List (Nat × Option Nat × String)) :=
  (splitOnChar ',' bins.toList).foldr
    (fun part acc =>
      acc.bind (fun l =>
        let p := trimWS part
        if p.isEmpty then some l
        else if p.getLast? == some '+' then
          (toNatQ p.dropLast).map (fun n => (n, none, String.mk p) :: l)
        else
          match splitOnChar '-' p with
          | [a, b] =>
            match toNatQ a, toNatQ b with
            | some x, some yb => some ((x, some yb, String.mk p) :: l)
            | _, _ => none
          | _ => none))
    (some [])

/-- The `CASE` expression of `kpi_sin_por_faixa`: all bounded brackets in
declared order, then all unbounded brackets in declared order, else
`'OUTROS'`. -/
def faixa_case (faixas : List (Nat × Option Nat × String)) (idade : Int) : String :=
  match faixas.find? (fun f =>
      match f.2.1 with
      | some b => decide ((f.1 : Int) ≤ idade ∧ idade ≤ (b : Int))
      | none => false) with
  | some f => f.2.2
  | none =>
    match faixas.find? (fun f => f.2.1.isNone && decide ((f.1 : Int) ≤ idade)) with
    | some f => f.2.2
    | none => "OUTROS"

/-- Bracket of an optional age: a `NULL` age (unparseable birth date) falls
through every `WHEN` to `'OUTROS'`. -/
def faixa_label (faixas : List (Nat × Option Nat × String)) (idade : Option Int) : String :=
  match idade with
  | some i => faixa_case faixas i
  | none => "OUTROS"

/-- The age `kpi_sin_por_faixa` uses:
`DATE_DIFF('year', CAST(nasc AS DATE), DATE 'YYYY-MM-01')` with the reference
date built from the competency string — DuckDB's year difference counts year
boundaries, i.e. competency year minus birth year.  The evaluation date
plays no part. -/
def idade_por_faixa (competencia nasc : String) : Option Int :=
  (strptime_ym competencia).bind
    (fun ym => (castAsDate nasc).map (fun d => (ym.1 : Int) - (d.y : Int)))

/-- One bracket line of the `kpi_sin_por_faixa` response. -/
structure FaixaItem where
  faixa : String
  custo : ℚ
  receita : ℚ
  sinistralidade : Option ℚ
deriving Repr, DecidableEq

/-- Response of `kpi_sin_por_faixa`. -/
structure FaixaOut where
  competencia : String
  bins : List String
  itens : List FaixaItem
deriving Repr, DecidableEq

/-- The `(bracket label, claim value)` pairs of the cost query of
`kpi_sin_por_faixa`: `conta` rows of the competency month inner-joined to
`beneficiario`, each labelled by the `CASE` bracket of the beneficiary's
age at the first day of the competency month (`y` is the competency year). -/
def faixa_entries_conta (faixas : List (Nat × Option Nat × String)) (y : Nat)
    (competencia : String) (contas : List ContaRow) (benefs : List BenefRow) :
    List (String × ℚ) :=
  (contas.filter (fun r => month_expr r.data == some competencia)).filterMap
    (fun r => (benefs.find? (fun b => b.id == r.id_benef)).map
      (fun b =>
        (faixa_label faixas ((castAsDate b.nasc).map (fun d => (y : Int) - (d.y : Int))),
          numeric_expr r.valor)))

/-- The `(bracket label, premium value)` pairs of the premium query of
`kpi_sin_por_faixa` (`mensalidade` inner-joined to `beneficiario`). -/
def faixa_entries_mens (faixas : List (Nat × Option Nat × String)) (y : Nat)
    (competencia : String) (mens : List MensRow) (benefs : List BenefRow) :
    List (String × ℚ) :=
  (mens.filter (fun r => month_expr r.data == some competencia)).filterMap
    (fun r => (benefs.find? (fun b => b.id == r.id_benef)).map
      (fun b =>
        (faixa_label faixas ((castAsDate b.nasc).map (fun d => (y : Int) - (d.y : Int))),
          numeric_expr r.valor)))

/-- One line of the `kpi_sin_por_faixa` merge loop: costs and premiums
looked up in the grouped maps (`dict.get(key, 0.0)`), ratio null when the
bracket's premium is zero. -/
def faixa_item_of (mapa_c mapa_r : List (String × ℚ)) (fx : String) : FaixaItem :=
  let custo := ((mapa_c.find? (fun e => e.1 == fx)).map Prod.snd).getD 0
  let receita := ((mapa_r.find? (fun e => e.1 == fx)).map Prod.snd).getD 0
  { faixa := fx
    custo := custo
    receita := receita
    sinistralidade := if receita ≠ 0 then some (custo / receita) else none }

/-- `kpi_sin_por_faixa` of app.py.  The `_today` argument stands for the
evaluation date (`CURRENT_DATE` of the data source); the handler never
consults it — its age reference is the first day of the competency month
(unlike `add_benef_filters`, whose age filter uses `CURRENT_DATE`).
Cost and premium rows are inner-joined to `beneficiario`, grouped by the
`CASE` bracket, merged over the union of keys present, ordered by declared
bracket order (then `'OUTROS'`). -/
def kpi_sin_por_faixa (_today : SDate) (competencia bins : String)
    (contas : List ContaRow) (mens : List MensRow) (benefs : List BenefRow) :
    Except String FaixaOut :=
  match strptime_ym competencia with
  | none => Except.error "ValueError: time data does not match format %Y-%m"
  | some ym =>
    match parse_bins bins with
    | none => Except.error "ValueError: invalid bins"
    | some faixas =>
      let mapa_c := group_sum (faixa_entries_conta faixas ym.1 competencia contas benefs)
      let mapa_r := group_sum (faixa_entries_mens faixas ym.1 competencia mens benefs)
      let todos := sortB (fun a b => !(strLt b a))
        ((mapa_c.map Prod.fst ++ mapa_r.map Prod.fst).dedup)
      let order := faixas.map (fun f => f.2.2) ++ ["OUTROS"]
      let itens := sortB (fun x z => decide (order_key order x.faixa ≤ order_key order z.faixa))
        (todos.map (faixa_item_of mapa_c mapa_r))
      Except.ok { competencia := competencia, bins := faixas.map (fun f => f.2.2), itens := itens }

/-! ### KPI: /kpi/prestador/impacto -/

/-- One provider line of the `kpi_prestador_impacto` response. -/
structure ImpactoItem where
  id_prestador : String
  nome : Option String
  custo : ℚ
  sinistralidade_relativa : Option ℚ
deriving Repr, DecidableEq

/-- Response of `kpi_prestador_impacto`. -/
structure ImpactoOut where
  competencia : String
  receita_total_mes : ℚ
  top : List ImpactoItem
deriving Repr, DecidableEq

/-- Claim total of one provider in one competency month (the per-group `SUM`
of the impacto query). -/
def prest_custo (comp idp : String) (contas : List ContaRow) : ℚ :=
  ((contas.filter (fun r => (month_expr r.data == some comp) && r.id_prest == idp)).map
    (fun r => numeric_expr r.valor)).sum

/-- `kpi_prestador_impacto` of app.py: group claim value by provider id
within the month, `ORDER BY 2 DESC` (no tie-break key in the query; the
embedding keeps the first-appearance group order, stably), `LIMIT top`,
left-join of the provider display name (null when unmatched), and the
relative ratio against the month's total premium (null when it is zero). -/
def kpi_prestador_impacto (competencia : String) (top : Nat)
    (contas : List ContaRow) (mens : List MensRow) (prest : List PrestRow) : ImpactoOut :=
  let receita_total := receita_mes competencia mens
  let entries := (contas.filter (fun r => month_expr r.data == some competencia)).map
    (fun r => (r.id_prest, numeric_expr r.valor))
  let grouped := group_sum entries
  let ordered := sortB (fun a b => decide (b.2 ≤ a.2)) grouped
  { competencia := competencia
    receita_total_mes := receita_total
    top := (ordered.take top).map (fun e =>
      { id_prestador := e.1
        nome := (prest.find? (fun p => p.id == e.1)).map PrestRow.nome
        custo := e.2
        sinistralidade_relativa :=
          if receita_total ≠ 0 then some (e.2 / receita_total) else none }) }

/-! ## Auxiliary lemmas -/

theorem toList_append (a b : String) : (a ++ b).toList = a.toList ++ b.toList := rfl

theorem isDigitChar_digitChar (n : Nat) : isDigitChar (digitChar n) = true := by
  have h : n % 10 < 10 := Nat.mod_lt _ (by norm_num)
  unfold digitChar
  generalize hk : n % 10 = k at h ⊢
  interval_cases k <;> rfl

theorem valid_comp_pad (y m : Nat) : valid_comp (pad4 y ++ "-" ++ pad2 m) = true := by
  have hl : (pad4 y ++ "-" ++ pad2 m).toList =
      [digitChar (y / 1000), digitChar (y / 100), digitChar (y / 10), digitChar y, '-',
        digitChar (m / 10), digitChar m] := rfl
  unfold valid_comp
  rw [hl]
  simp [isDigitChar_digitChar]

theorem valid_comp_of_month_expr (raw c : String) (h : month_expr raw = some c) :
    valid_comp c = true := by
  unfold month_expr at h
  cases hp : parse_date_raw raw with
  | none => rw [hp] at h; cases h
  | some d =>
    rw [hp] at h
    simp only [Option.map_some'] at h
    rw [← Option.some.injEq] at h
    cases h
    exact valid_comp_pad d.y d.m

theorem month_ne_of_invalid {comp : String} (hc : valid_comp comp = false) (raw : String) :
    (month_expr raw == some comp) = false := by
  cases hm : month_expr raw with
  | none => rfl
  | some c =>
    have hv := valid_comp_of_month_expr raw c hm
    have hne : c ≠ comp := fun he => by rw [he] at hv; rw [hv] at hc; cases hc
    simp [hne]

theorem custo_mes_zero_of_invalid {comp : String} (hc : valid_comp comp = false)
    (contas : List ContaRow) : custo_mes comp contas = 0 := by
  unfold custo_mes
  rw [List.filter_eq_nil_iff.mpr (fun r _ => by simp [month_ne_of_invalid hc r.data])]
  rfl

theorem receita_mes_zero_of_invalid {comp : String} (hc : valid_comp comp = false)
    (mens : List MensRow) : receita_mes comp mens = 0 := by
  unfold receita_mes
  rw [List.filter_eq_nil_iff.mpr (fun r _ => by simp [month_ne_of_invalid hc r.data])]
  rfl

theorem kpi_sin_diferenca_zero (comp : String) (contas : List ContaRow) (mens : List MensRow)
    (hc : custo_mes comp contas = 0) (hr : receita_mes comp mens = 0) :
    kpi_sin_diferenca comp contas mens = ⟨comp, 0, 0, 0, none⟩ := by
  unfold kpi_sin_diferenca
  rw [hc, hr]
  simp

theorem insB_perm {α : Type} (le : α → α → Bool) (x : α) :
    ∀ l : List α, (insB le x l).Perm (x :: l)
  | [] => List.Perm.refl _
  | y :: ys => by
    cases hb : le x y with
    | true => simp [insB, hb]
    | false =>
      simp only [insB, hb, Bool.false_eq_true, if_false]
      exact ((insB_perm le x ys).cons y).trans (List.Perm.swap x y ys)

theorem sortB_perm {α : Type} (le : α → α → Bool) :
    ∀ l : List α, (sortB le l).Perm l
  | [] => List.Perm.refl _
  | x :: xs => (insB_perm le x (sortB le xs)).trans ((sortB_perm le xs).cons x)

theorem pairwise_insB {α : Type} (le : α → α → Bool)
    (htot : ∀ a b, le a b = true ∨ le b a = true)
    (htrans : ∀ a b c, le a b = true → le b c = true → le a c = true) (x : α) :
    ∀ l : List α, l.Pairwise (fun a b => le a b = true) →
      (insB le x l).Pairwise (fun a b => le a b = true)
  | [], _ => by simp [insB]
  | y :: ys, hp => by
    have hpy := (List.pairwise_cons.mp hp).1
    have hpt := (List.pairwise_cons.mp hp).2
    cases hb : le x y with
    | true =>
      simp only [insB, hb, if_true]
      refine List.pairwise_cons.mpr ⟨?_, hp⟩
      intro z hz
      rcases List.mem_cons.mp hz with h | h
      · exact h ▸ hb
      · exact htrans x y z hb (hpy z h)
    | false =>
      simp only [insB, hb, Bool.false_eq_true, if_false]
      refine List.pairwise_cons.mpr ⟨?_, pairwise_insB le htot htrans x ys hpt⟩
      intro z hz
      have hz' := (insB_perm le x ys).mem_iff.mp hz
      rcases List.mem_cons.mp hz' with h | h
      · subst h
        cases htot z y with
        | inl hxy => rw [hxy] at hb; cases hb
        | inr hyx => exact hyx
      · exact hpy z h

theorem pairwise_sortB {α : Type} (le : α → α → Bool)
    (htot : ∀ a b, le a b = true ∨ le b a = true)
    (htrans : ∀ a b c, le a b = true → le b c = true → le a c = true) :
    ∀ l : List α, (sortB le l).Pairwise (fun a b => le a b = true)
  | [] => List.Pairwise.nil
  | x :: xs => pairwise_insB le htot htrans x _ (pairwise_sortB le htot htrans xs)

theorem contains_append_str (l1 l2 : List String) (a : String) :
    (l1 ++ l2).contains a = (l1.contains a || l2.contains a) := by
  by_cases h1 : a ∈ l1 <;> by_cases h2 : a ∈ l2 <;>
    simp [List.contains, List.elem_eq_mem, List.mem_append, h1, h2]

theorem in_months_append (W1 W2 : List String) (raw : String) :
    in_months (W1 ++ W2) raw = (in_months W1 raw || in_months W2 raw) := by
  unfold in_months
  cases hm : month_expr raw with
  | none => rfl
  | some m => exact contains_append_str W1 W2 m

theorem in_months_true {W : List String} {raw : String} (h : in_months W raw = true) :
    ∃ m, month_expr raw = some m ∧ m ∈ W := by
  unfold in_months at h
  cases hm : month_expr raw with
  | none => rw [hm] at h; cases h
  | some m =>
    rw [hm] at h
    exact ⟨m, rfl, by simpa [List.contains, List.elem_eq_mem] using h⟩

theorem claims_win_nil (contas : List ContaRow) : claims_win [] contas = 0 := by
  unfold claims_win
  rw [List.filter_eq_nil_iff.mpr
    (fun r _ => by unfold in_months; cases month_expr r.data <;> simp [List.contains])]
  rfl

theorem premium_win_nil (mens : List MensRow) : premium_win [] mens = 0 := by
  unfold premium_win
  rw [List.filter_eq_nil_iff.mpr
    (fun r _ => by unfold in_months; cases month_expr r.data <;> simp [List.contains])]
  rfl

theorem claims_win_cons (W : List String) (r : ContaRow) (rs : List ContaRow) :
    claims_win W (r :: rs) =
      (if in_months W r.data then numeric_expr r.valor else 0) + claims_win W rs := by
  unfold claims_win
  cases h : in_months W r.data <;> simp [List.filter_cons, h]

theorem premium_win_cons (W : List String) (r : MensRow) (rs : List MensRow) :
    premium_win W (r :: rs) =
      (if in_months W r.data then numeric_expr r.valor else 0) + premium_win W rs := by
  unfold premium_win
  cases h : in_months W r.data <;> simp [List.filter_cons, h]

theorem not_in_both_months {W1 W2 : List String} (hd : ∀ m ∈ W1, m ∉ W2) (raw : String) :
    ¬(in_months W1 raw = true ∧ in_months W2 raw = true) := by
  rintro ⟨h1, h2⟩
  obtain ⟨m, hm, hmem1⟩ := in_months_true h1
  obtain ⟨m', hm', hmem2⟩ := in_months_true h2
  rw [hm] at hm'
  injection hm' with he
  exact hd m hmem1 (he ▸ hmem2)

theorem claims_win_append (W1 W2 : List String) (hd : ∀ m ∈ W1, m ∉ W2) :
    ∀ contas : List ContaRow,
      claims_win (W1 ++ W2) contas = claims_win W1 contas + claims_win W2 contas
  | [] => by simp [claims_win]
  | r :: rs => by
    have ih := claims_win_append W1 W2 hd rs
    have hboth := not_in_both_months hd r.data
    rw [claims_win_cons, claims_win_cons, claims_win_cons, in_months_append, ih]
    cases h1 : in_months W1 r.data <;> cases h2 : in_months W2 r.data
    case true.true => exact absurd ⟨h1, h2⟩ hboth
    case false.false => simp
    case false.true => simp; ring
    case true.false => simp; ring

theorem premium_win_append (W1 W2 : List String) (hd : ∀ m ∈ W1, m ∉ W2) :
    ∀ mens : List MensRow,
      premium_win (W1 ++ W2) mens = premium_win W1 mens + premium_win W2 mens
  | [] => by simp [premium_win]
  | r :: rs => by
    have ih := premium_win_append W1 W2 hd rs
    have hboth := not_in_both_months hd r.data
    rw [premium_win_cons, premium_win_cons, premium_win_cons, in_months_append, ih]
    cases h1 : in_months W1 r.data <;> cases h2 : in_months W2 r.data
    case true.true => exact absurd ⟨h1, h2⟩ hboth
    case false.false => simp
    case false.true => simp; ring
    case true.false => simp; ring

theorem custo_mes_eq_claims_single (m : String) (contas : List ContaRow) :
    custo_mes m contas = claims_win [m] contas := by
  have hfun : (fun r : ContaRow => month_expr r.data == some m) =
      (fun r : ContaRow => in_months [m] r.data) := by
    funext r
    unfold in_months
    cases hm : month_expr r.data with
    | none => rfl
    | some c => by_cases h : c = m <;> simp [List.contains, h]
  unfold custo_mes claims_win
  rw [hfun]

theorem receita_mes_eq_premium_single (m : String) (mens : List MensRow) :
    receita_mes m mens = premium_win [m] mens := by
  have hfun : (fun r : MensRow => month_expr r.data == some m) =
      (fun r : MensRow => in_months [m] r.data) := by
    funext r
    unfold in_months
    cases hm : month_expr r.data with
    | none => rfl
    | some c => by_cases h : c = m <;> simp [List.contains, h]
  unfold receita_mes premium_win
  rw [hfun]

theorem sum_custo_mes_eq (contas : List ContaRow) :
    ∀ sel : List String, sel.Nodup →
      ((sel.map (fun m => custo_mes m contas)).sum) = claims_win sel contas
  | [], _ => by simp [claims_win_nil]
  | m :: ms, h => by
    have hm : m ∉ ms := (List.nodup_cons.mp h).1
    have ih := sum_custo_mes_eq contas ms (List.nodup_cons.mp h).2
    have happ := claims_win_append [m] ms
      (fun x hx => by rw [List.mem_singleton] at hx; exact hx ▸ hm) contas
    rw [List.singleton_append] at happ
    rw [List.map_cons, List.sum_cons, ih, custo_mes_eq_claims_single, happ]

theorem sum_receita_mes_eq (mens : List MensRow) :
    ∀ sel : List String, sel.Nodup →
      ((sel.map (fun m => receita_mes m mens)).sum) = premium_win sel mens
  | [], _ => by simp [premium_win_nil]
  | m :: ms, h => by
    have hm : m ∉ ms := (List.nodup_cons.mp h).1
    have ih := sum_receita_mes_eq mens ms (List.nodup_cons.mp h).2
    have happ := premium_win_append [m] ms
      (fun x hx => by rw [List.mem_singleton] at hx; exact hx ▸ hm) mens
    rw [List.singleton_append] at happ
    rw [List.map_cons, List.sum_cons, ih, receita_mes_eq_premium_single, happ]

theorem selected_months_nodup (n : Nat) (contas : List ContaRow) (mens : List MensRow) :
    (selected_months n contas mens).Nodup := by
  have h1 : (month_keys contas mens).Nodup := List.nodup_dedup _
  have h2 : (monthsDesc contas mens).Nodup :=
    ((sortB_perm _ (month_keys contas mens)).nodup_iff).mpr h1
  exact List.Nodup.sublist (List.take_sublist n _) h2

theorem group_sum_mem (entries : List (String × ℚ)) (k : String) (v : ℚ)
    (h : (k, v) ∈ group_sum entries) :
    v = ((entries.filter (fun e => e.1 == k)).map Prod.snd).sum := by
  unfold group_sum at h
  obtain ⟨k', _, heq⟩ := List.mem_map.mp h
  have h1 : k' = k := congrArg Prod.fst heq
  have h2 : ((entries.filter (fun e => e.1 == k')).map Prod.snd).sum = v :=
    congrArg Prod.snd heq
  rw [← h2, h1]

theorem filterOfMap {α β : Type} (f : α → β) (p : β → Bool) (l : List α) :
    (l.map f).filter p = (l.filter (fun a => p (f a))).map f := by
  induction l with
  | nil => rfl
  | cons x xs ih => cases h : p (f x) <;> simp [List.filter_cons, h, ih]

theorem kpi_sin_ultima_ok (contas : List ContaRow) (mens : List MensRow) (mes : String)
    (hhead : (monthsDesc contas mens).head? = some mes) :
    kpi_sin_ultima contas mens = Except.ok
      { competencia := mes
        custo := custo_mes mes contas
        receita := receita_mes mes mens
        sinistralidade :=
          if receita_mes mes mens ≠ 0 then some (custo_mes mes contas / receita_mes mes mens)
          else none
        observacao :=
          if receita_mes mes mens ≠ 0 then none
          else some "Receita igual a 0 nesta competência; sinistralidade indefinida." } := by
  unfold kpi_sin_ultima
  rw [hhead]

theorem kpi_sin_media_fields (n : Nat) (contas : List ContaRow) (mens : List MensRow)
    (hne : selected_months n contas mens ≠ []) :
    ∃ out, kpi_sin_media n contas mens = Except.ok out ∧
      out.custo_total = ((selected_months n contas mens).map (fun m => custo_mes m contas)).sum ∧
      out.receita_total = ((selected_months n contas mens).map (fun m => receita_mes m mens)).sum ∧
      out.media_sinistralidade_agregada =
        (if ((selected_months n contas mens).map (fun m => receita_mes m mens)).sum ≠ 0 then
          some (((selected_months n contas mens).map (fun m => custo_mes m contas)).sum /
            ((selected_months n contas mens).map (fun m => receita_mes m mens)).sum)
        else none) ∧
      out.meses_considerados = (selected_months n contas mens).length := by
  have hE : (selected_months n contas mens).isEmpty = false := by
    cases hsel : selected_months n contas mens with
    | nil => exact absurd hsel hne
    | cons a l => rfl
  unfold kpi_sin_media
  simp only [hE, Bool.false_eq_true, if_false]
  refine ⟨_, rfl, ?_, ?_, ?_, ?_⟩
  · show (List.map SerieItem.custo (List.map _ _)).sum = _
    rw [List.map_map]; rfl
  · show (List.map SerieItem.receita (List.map _ _)).sum = _
    rw [List.map_map]; rfl
  · show (if (List.map SerieItem.receita (List.map _ _)).sum ≠ 0 then _ else _) = _
    rw [List.map_map, List.map_map]; rfl
  · show (List.map _ _).length = _
    rw [List.length_map]

/-! ## Claims -/

/-- C1: for every loss-ratio computation (single competency via
`kpi_sin_diferenca`, latest month via `kpi_sin_ultima`, aggregate via
`kpi_sin_media`), a zero premium total makes the returned ratio field `null`
(`none`), never `0`, while the claims and premium totals are still reported. -/
theorem C1_zero_premium_null_ratio :
    (∀ comp contas mens, receita_mes comp mens = 0 →
      (kpi_sin_diferenca comp contas mens).sinistralidade = none ∧
      (kpi_sin_diferenca comp contas mens).custo = custo_mes comp contas ∧
      (kpi_sin_diferenca comp contas mens).receita = 0) ∧
    (∀ contas mens mes, (monthsDesc contas mens).head? = some mes →
      receita_mes mes mens = 0 →
      kpi_sin_ultima contas mens = Except.ok
        { competencia := mes, custo := custo_mes mes contas, receita := 0
          sinistralidade := none
          observacao := some "Receita igual a 0 nesta competência; sinistralidade indefinida." }) ∧
    (∀ n contas mens, selected_months n contas mens ≠ [] →
      ((selected_months n contas mens).map (fun m => receita_mes m mens)).sum = 0 →
      ∃ out, kpi_sin_media n contas mens = Except.ok out ∧
        out.media_sinistralidade_agregada = none ∧ out.receita_total = 0) := by
  refine ⟨?_, ?_, ?_⟩
  · intro comp contas mens h
    unfold kpi_sin_diferenca
    rw [h]
    exact ⟨by simp, rfl, rfl⟩
  · intro contas mens mes hhead hr
    rw [kpi_sin_ultima_ok contas mens mes hhead, hr]
    simp
  · intro n contas mens hne h0
    obtain ⟨out, hok, _, hrt, hm, _⟩ := kpi_sin_media_fields n contas mens hne
    exact ⟨out, hok, by rw [hm, h0]; simp, by rw [hrt, h0]⟩

/-- Witness for C1 at concrete inputs. -/
theorem C1_zero_premium_null_ratio_witness :
    (kpi_sin_diferenca "2024-01" [] []).sinistralidade = none ∧
    kpi_sin_ultima [⟨"2024-01-15", "5", "B1", "P1"⟩] [] = Except.ok
      { competencia := "2024-01", custo := custo_mes "2024-01" [⟨"2024-01-15", "5", "B1", "P1"⟩]
        receita := 0, sinistralidade := none
        observacao := some "Receita igual a 0 nesta competência; sinistralidade indefinida." } ∧
    (∃ out, kpi_sin_media 6 [⟨"2024-01-15", "5", "B1", "P1"⟩] [] = Except.ok out ∧
      out.media_sinistralidade_agregada = none ∧ out.receita_total = 0) :=
  ⟨(C1_zero_premium_null_ratio.1 "2024-01" [] [] rfl).1,
   C1_zero_premium_null_ratio.2.1 [⟨"2024-01-15", "5", "B1", "P1"⟩] [] "2024-01" rfl rfl,
   C1_zero_premium_null_ratio.2.2 6 [⟨"2024-01-15", "5", "B1", "P1"⟩] [] (by decide)
     (by show ((["2024-01"] : List String).map (fun m => receita_mes m [])).sum = 0
         simp [receita_mes])⟩

/-- C2: the aggregate loss ratio of `kpi_sin_media` is the volume-weighted
ratio (sum of monthly claim totals over sum of monthly premium totals, i.e.
the spec's `LossRatio` over the selected window), not the mean of per-month
ratios; and `LossRatio` over a union of disjoint windows equals the ratio of
the added window aggregates. -/
theorem C2_aggregate_ratio :
    (∀ n contas mens, selected_months n contas mens ≠ [] →
      ∃ out, kpi_sin_media n contas mens = Except.ok out ∧
        out.custo_total = claims_win (selected_months n contas mens) contas ∧
        out.receita_total = premium_win (selected_months n contas mens) mens ∧
        out.media_sinistralidade_agregada =
          lossRatio_spec (selected_months n contas mens) contas mens) ∧
    (∀ W1 W2 contas mens, (∀ m ∈ W1, m ∉ W2) →
      lossRatio_spec (W1 ++ W2) contas mens =
        if premium_win W1 mens + premium_win W2 mens = 0 then none
        else some ((claims_win W1 contas + claims_win W2 contas) /
          (premium_win W1 mens + premium_win W2 mens))) := by
  constructor
  · intro n contas mens hne
    obtain ⟨out, hok, hc, hrt, hm, _⟩ := kpi_sin_media_fields n contas mens hne
    have hnd := selected_months_nodup n contas mens
    have hcw := sum_custo_mes_eq contas _ hnd
    have hpw := sum_receita_mes_eq mens _ hnd
    refine ⟨out, hok, by rw [hc, hcw], by rw [hrt, hpw], ?_⟩
    rw [hm, hcw, hpw]
    unfold lossRatio_spec
    by_cases h : premium_win (selected_months n contas mens) mens = 0 <;> simp [h]
  · intro W1 W2 contas mens hd
    unfold lossRatio_spec
    rw [claims_win_append W1 W2 hd contas, premium_win_append W1 W2 hd mens]

/-- Witness for C2 at concrete inputs. -/
theorem C2_aggregate_ratio_witness :
    (∃ out, kpi_sin_media 6 [⟨"2024-01-15", "100", "B1", "P1"⟩] [⟨"2024-01-10", "400", "B1"⟩] =
        Except.ok out ∧
      out.custo_total = claims_win
        (selected_months 6 [⟨"2024-01-15", "100", "B1", "P1"⟩] [⟨"2024-01-10", "400", "B1"⟩])
        [⟨"2024-01-15", "100", "B1", "P1"⟩] ∧
      out.receita_total = premium_win
        (selected_months 6 [⟨"2024-01-15", "100", "B1", "P1"⟩] [⟨"2024-01-10", "400", "B1"⟩])
        [⟨"2024-01-10", "400", "B1"⟩] ∧
      out.media_sinistralidade_agregada = lossRatio_spec
        (selected_months 6 [⟨"2024-01-15", "100", "B1", "P1"⟩] [⟨"2024-01-10", "400", "B1"⟩])
        [⟨"2024-01-15", "100", "B1", "P1"⟩] [⟨"2024-01-10", "400", "B1"⟩]) ∧
    lossRatio_spec (["2024-01"] ++ ["2024-02"]) [⟨"2024-01-15", "100", "B1", "P1"⟩]
        [⟨"2024-01-10", "400", "B1"⟩] =
      (if premium_win ["2024-01"] [⟨"2024-01-10", "400", "B1"⟩] +
          premium_win ["2024-02"] [⟨"2024-01-10", "400", "B1"⟩] = 0 then none
      else some ((claims_win ["2024-01"] [⟨"2024-01-15", "100", "B1", "P1"⟩] +
          claims_win ["2024-02"] [⟨"2024-01-15", "100", "B1", "P1"⟩]) /
        (premium_win ["2024-01"] [⟨"2024-01-10", "400", "B1"⟩] +
          premium_win ["2024-02"] [⟨"2024-01-10", "400", "B1"⟩]))) :=
  ⟨C2_aggregate_ratio.1 6 [⟨"2024-01-15", "100", "B1", "P1"⟩] [⟨"2024-01-10", "400", "B1"⟩]
      (by decide),
   C2_aggregate_ratio.2 ["2024-01"] ["2024-02"] [⟨"2024-01-15", "100", "B1", "P1"⟩]
      [⟨"2024-01-10", "400", "B1"⟩] (by decide)⟩

/-- C4 counterexample: a competency failing the regex is not rejected —
`kpi_sin_diferenca` runs on real data and returns a normal zero-valued
result instead of an `InvalidCompetencyFormat` error. -/
theorem C4_no_format_validation_counterexample :
    valid_comp "banana" = false ∧
    kpi_sin_diferenca "banana" [⟨"2024-01-15", "100", "B1", "P1"⟩] [⟨"2024-01-10", "400", "B1"⟩] =
      ⟨"banana", 0, 0, 0, none⟩ :=
  ⟨rfl, kpi_sin_diferenca_zero _ _ _ rfl rfl⟩

/-- C4 (amended): `kpi_sin_diferenca` performs no competency-format
validation; a competency string failing `^\d{4}-\d{2}$` simply matches no
month key (every month key produced by `month_expr` satisfies the regex), so
the request yields the zero-valued result, never a format error. -/
theorem C4_malformed_competency_zero_result (comp : String) (contas : List ContaRow)
    (mens : List MensRow) (hc : valid_comp comp = false) :
    kpi_sin_diferenca comp contas mens = ⟨comp, 0, 0, 0, none⟩ :=
  kpi_sin_diferenca_zero comp contas mens (custo_mes_zero_of_invalid hc contas)
    (receita_mes_zero_of_invalid hc mens)

/-- Witness for C4 (amended) at a concrete near-miss competency. -/
theorem C4_malformed_competency_zero_result_witness :
    kpi_sin_diferenca "2024-1" [⟨"2024-01-15", "100", "B1", "P1"⟩] [] =
      ⟨"2024-1", 0, 0, 0, none⟩ :=
  C4_malformed_competency_zero_result "2024-1" _ _ rfl

/-- C8 counterexample: with no data at all, `kpi_sin_ultima` and
`kpi_sin_media` answer with an HTTP 404 error — an "empty-as-error"
response, contradicting the claim that zero matching rows never errors. -/
theorem C8_empty_as_error_counterexample :
    kpi_sin_ultima [] [] = Except.error "Sem dados para calcular sinistralidade." ∧
    kpi_sin_media 6 [] [] = Except.error "Sem dados para calcular a média de sinistralidade." :=
  ⟨rfl, rfl⟩

/-- C8 (amended): a window matching zero rows yields the zero-valued KPI for
`kpi_sin_diferenca` (zero totals, null ratio, no error), but `kpi_sin_ultima`
(and `kpi_sin_media`) return an error when the joined month series is empty. -/
theorem C8_zero_rows_zero_kpi :
    (∀ comp contas mens,
      contas.filter (fun r => month_expr r.data == some comp) = [] →
      mens.filter (fun r => month_expr r.data == some comp) = [] →
      kpi_sin_diferenca comp contas mens = ⟨comp, 0, 0, 0, none⟩) ∧
    (∀ contas mens, month_keys contas mens = [] →
      kpi_sin_ultima contas mens = Except.error "Sem dados para calcular sinistralidade.") := by
  constructor
  · intro comp contas mens hc hr
    exact kpi_sin_diferenca_zero comp contas mens
      (by unfold custo_mes; rw [hc]; rfl) (by unfold receita_mes; rw [hr]; rfl)
  · intro contas mens hk
    unfold kpi_sin_ultima monthsDesc
    rw [hk]
    rfl

/-- Witness for C8 (amended) at concrete inputs. -/
theorem C8_zero_rows_zero_kpi_witness :
    kpi_sin_diferenca "2024-02" [⟨"2024-01-15", "100", "B1", "P1"⟩] [] =
      ⟨"2024-02", 0, 0, 0, none⟩ ∧
    kpi_sin_ultima [] [] = Except.error "Sem dados para calcular sinistralidade." :=
  ⟨C8_zero_rows_zero_kpi.1 "2024-02" _ _ rfl rfl, C8_zero_rows_zero_kpi.2 [] [] rfl⟩

/-- C3 counterexample: `find_col` finds nothing for candidate `"valor"`
among columns `["valor_total"]` although the spec's tier-3 substring match
resolves it — the source has no tier 2 or 3. -/
theorem C3_find_col_counterexample :
    find_col ["valor_total"] ["valor"] = none ∧
    find_col_spec ["valor_total"] ["valor"] = some "valor_total" := by decide

/-- C3 (amended): column resolution in the source has a single tier — the
first non-empty candidate equal, case-insensitively, to some available
column is returned (in the candidate's own spelling); when no candidate
matches exactly (case-insensitively), resolution returns `none` even if a
normalized or substring match exists. -/
theorem C3_find_col_single_tier :
    (∀ cols cands c, find_col cols cands = some c →
      c ∈ cands ∧ lowerStr c ∈ cols.map lowerStr) ∧
    (∀ cols cands, (∀ c ∈ cands, lowerStr c ∉ cols.map lowerStr) →
      find_col cols cands = none) := by
  constructor
  · intro cols cands
    induction cands with
    | nil => intro c h; cases h
    | cons a l ih =>
      intro c h
      simp only [find_col, List.findSome?_cons] at h ih
      cases hcond : (a != "" && (cols.map lowerStr).contains (lowerStr a)) with
      | true =>
        rw [hcond] at h
        simp only [if_true] at h
        injection h with he
        subst he
        have hmem : (cols.map lowerStr).contains (lowerStr a) = true := by
          cases hx : (cols.map lowerStr).contains (lowerStr a) with
          | true => rfl
          | false => rw [hx, Bool.and_false] at hcond; cases hcond
        refine ⟨List.mem_cons_self a l, ?_⟩
        simpa [List.contains, List.elem_eq_mem] using hmem
      | false =>
        rw [hcond] at h
        simp only [Bool.false_eq_true, if_false] at h
        obtain ⟨h1, h2⟩ := ih c h
        exact ⟨List.mem_cons_of_mem a h1, h2⟩
  · intro cols cands
    induction cands with
    | nil => intro _; rfl
    | cons a l ih =>
      intro h
      have hmem : (cols.map lowerStr).contains (lowerStr a) = false := by
        have := h a (List.mem_cons_self a l)
        simpa [List.contains, List.elem_eq_mem] using this
      simp only [find_col, List.findSome?_cons, hmem, Bool.and_false,
        Bool.false_eq_true, if_false]
      exact ih (fun c hc => h c (List.mem_cons_of_mem a hc))

/-- Witness for C3 (amended) at concrete inputs. -/
theorem C3_find_col_single_tier_witness :
    "vl_pago" ∈ ["vl_liberado", "vl_pago"] ∧
      lowerStr "vl_pago" ∈ ["VL_PAGO"].map lowerStr ∧
    find_col ["vl_total"] ["valor", "custo"] = none :=
  ⟨(C3_find_col_single_tier.1 ["VL_PAGO"] ["vl_liberado", "vl_pago"] "vl_pago" (by decide)).1,
   (C3_find_col_single_tier.1 ["VL_PAGO"] ["vl_liberado", "vl_pago"] "vl_pago" (by decide)).2,
   C3_find_col_single_tier.2 ["vl_total"] ["valor", "custo"] (by decide)⟩

/-- C7: the status clause classifies `"INATIVO"` (a text stating the
beneficiary is NOT active) as active, because `upper(col) LIKE '%ATIV%'`
matches any value containing `ATIV`; the claim that values outside the
accepted active-token set are classified inactive is what the code was meant
to do and fails to do. -/
theorem C7_inativo_classified_active :
    status_ativo_clause "INATIVO" = true ∧ status_ativo_clause "inativa" = true ∧
    status_ativo_clause "ATIVO" = true ∧ status_ativo_clause "DESLIGADO" = false := by decide

/-- C10: the sanitizing retry of `numeric_expr` removes every `'.'` before
converting `','` to `'.'`, so a value with a decimal point like `"R$1.50"`
parses to `150`, while a decimal comma `"R$1,50"` parses to `3/2 = 1.5`;
in general, when the direct cast fails the result is the cast of the
sanitized string, defaulting to `0`. -/
theorem C10_money_sanitize :
    numeric_expr "R$1.50" = 150 ∧ numeric_expr "R$1,50" = 3 / 2 ∧
    sanitize_money "R$1.50" = "150" ∧ sanitize_money "R$1,50" = "1.50" ∧
    (∀ s, tryCastDouble s = none →
      numeric_expr s = (tryCastDouble (sanitize_money s)).getD 0) := by
  refine ⟨rfl, ?_, rfl, rfl, ?_⟩
  · have h : numeric_expr "R$1,50" = (1 : ℚ) + (50 : ℚ) / (10 : ℚ) ^ (2 : Nat) := rfl
    rw [h]; norm_num
  · intro s h
    unfold numeric_expr
    rw [h]
    cases tryCastDouble (sanitize_money s) <;> rfl

/-- Witness for C10 at a concrete input whose direct cast fails. -/
theorem C10_money_sanitize_witness :
    numeric_expr "R$1.50" = (tryCastDouble (sanitize_money "R$1.50")).getD 0 :=
  C10_money_sanitize.2.2.2.2 "R$1.50" rfl

theorem impacto_top_eq (comp : String) (limit : Nat) (contas : List ContaRow)
    (mens : List MensRow) (prest : List PrestRow) :
    (kpi_prestador_impacto comp limit contas mens prest).top =
      ((sortB (fun a b => decide (b.2 ≤ a.2))
        (group_sum ((contas.filter (fun r => month_expr r.data == some comp)).map
          (fun r => (r.id_prest, numeric_expr r.valor))))).take limit).map
        (fun e =>
          { id_prestador := e.1
            nome := (prest.find? (fun p => p.id == e.1)).map PrestRow.nome
            custo := e.2
            sinistralidade_relativa :=
              if receita_mes comp mens ≠ 0 then some (e.2 / receita_mes comp mens)
              else none }) := rfl

/-- C9: the cost-by-age-bracket ages are evaluation-time independent — the
handler result does not depend on the `CURRENT_DATE` argument — and the age
it uses is the year difference between the birth date and the first day of
the competency month (DuckDB year boundaries: competency year minus birth
year). -/
theorem C9_age_from_competency :
    (∀ t1 t2 comp bins contas mens benefs,
      kpi_sin_por_faixa t1 comp bins contas mens benefs =
        kpi_sin_por_faixa t2 comp bins contas mens benefs) ∧
    (∀ comp nasc y mo d, strptime_ym comp = some (y, mo) → castAsDate nasc = some d →
      idade_por_faixa comp nasc = some ((y : Int) - (d.y : Int))) := by
  constructor
  · intro t1 t2 comp bins contas mens benefs
    rfl
  · intro comp nasc y mo d h1 h2
    unfold idade_por_faixa
    rw [h1, h2]
    rfl

/-- Witness for C9 at concrete dates. -/
theorem C9_age_from_competency_witness :
    kpi_sin_por_faixa ⟨2026, 10, 12⟩ "2024-01" "0-18" [] [] [] =
      kpi_sin_por_faixa ⟨2030, 1, 1⟩ "2024-01" "0-18" [] [] [] ∧
    idade_por_faixa "2024-01" "2014-06-15" = some 10 :=
  ⟨C9_age_from_competency.1 ⟨2026, 10, 12⟩ ⟨2030, 1, 1⟩ "2024-01" "0-18" [] [] [],
   (C9_age_from_competency.2 "2024-01" "2014-06-15" 2024 1 ⟨2014, 6, 15⟩ rfl rfl).trans
     (by decide)⟩

/-- C5 counterexample: bracket `"60+"` is declared in the spec string but no
row falls in it, and it is absent from `itens` (it appears only in the `bins`
echo) — the claim that every declared bracket appears with cost 0 fails. -/
theorem C5_missing_bracket_counterexample :
    kpi_sin_por_faixa ⟨2026, 10, 12⟩ "2024-01" "0-18,60+"
      [⟨"2024-01-15", "50", "B1", "P1"⟩] [] [⟨"B1", "2014-06-15"⟩] =
    Except.ok ⟨"2024-01", ["0-18", "60+"], [⟨"0-18", 50, 0, none⟩]⟩ := by
  have h : kpi_sin_por_faixa ⟨2026, 10, 12⟩ "2024-01" "0-18,60+"
      [⟨"2024-01-15", "50", "B1", "P1"⟩] [] [⟨"B1", "2014-06-15"⟩] =
    Except.ok ⟨"2024-01", ["0-18", "60+"],
      [⟨"0-18", List.sum [numeric_expr "50"], 0, none⟩]⟩ := rfl
  rw [h]
  simp [show numeric_expr "50" = (50 : ℚ) from rfl]

/-- C6 counterexample: two providers with equal sums in the window keep the
group order (`"2"` before `"1"`): the `ORDER BY 2 DESC` query has no
tie-break key, so ties are not returned in ascending provider-id order. -/
theorem C6_tie_order_counterexample :
    (kpi_prestador_impacto "2024-01" 10
      [⟨"2024-01-05", "10", "B1", "2"⟩, ⟨"2024-01-06", "10", "B1", "1"⟩] [] []).top.map
        ImpactoItem.id_prestador = ["2", "1"] ∧
    (["2", "1"] : List String) ≠ ["1", "2"] := by
  constructor
  · have h : (kpi_prestador_impacto "2024-01" 10
        [⟨"2024-01-05", "10", "B1", "2"⟩, ⟨"2024-01-06", "10", "B1", "1"⟩] [] []).top =
      ((sortB (fun a b => decide (b.2 ≤ a.2))
        [("2", List.sum [numeric_expr "10"]), ("1", List.sum [numeric_expr "10"])]).take 10).map
        (fun e => ⟨e.1, none, e.2, none⟩) := rfl
    rw [h]
    have h10 : List.sum [numeric_expr "10"] = (10 : ℚ) := by
      simp [show numeric_expr "10" = (10 : ℚ) from rfl]
    rw [h10]
    decide
  · decide

/-- C6 (amended): `kpi_prestador_impacto` groups claim value by provider id
within the month, sums per provider, sorts descending by the sum — with no
defined tie order (the query has no secondary sort key; the embedding keeps
first-appearance order among equal sums) — truncates to the limit, and
reports the provider display name as `null` when no provider row matches
(no fallback to the raw id). -/
theorem C6_ranking_sorted_desc :
    ∀ comp limit contas mens prest,
      List.Pairwise (fun a b : ImpactoItem => b.custo ≤ a.custo)
        (kpi_prestador_impacto comp limit contas mens prest).top ∧
      (kpi_prestador_impacto comp limit contas mens prest).top.length ≤ limit ∧
      (∀ e, e ∈ (kpi_prestador_impacto comp limit contas mens prest).top →
        e.custo = prest_custo comp e.id_prestador contas ∧
        e.nome = (prest.find? (fun p => p.id == e.id_prestador)).map PrestRow.nome) := by
  intro comp limit contas mens prest
  have htot : ∀ a b : String × ℚ,
      (fun a b : String × ℚ => decide (b.2 ≤ a.2)) a b = true ∨
        (fun a b : String × ℚ => decide (b.2 ≤ a.2)) b a = true := by
    intro a b
    rcases le_total b.2 a.2 with h | h
    · left; exact decide_eq_true h
    · right; exact decide_eq_true h
  have htrans : ∀ a b c : String × ℚ,
      (fun a b : String × ℚ => decide (b.2 ≤ a.2)) a b = true →
        (fun a b : String × ℚ => decide (b.2 ≤ a.2)) b c = true →
        (fun a b : String × ℚ => decide (b.2 ≤ a.2)) a c = true := by
    intro a b c h1 h2
    exact decide_eq_true (le_trans (of_decide_eq_true h2) (of_decide_eq_true h1))
  have hsorted := pairwise_sortB (fun a b : String × ℚ => decide (b.2 ≤ a.2)) htot htrans
    (group_sum ((contas.filter (fun r => month_expr r.data == some comp)).map
      (fun r => (r.id_prest, numeric_expr r.valor))))
  have hsorted' := hsorted.imp (fun h => of_decide_eq_true h)
  refine ⟨?_, ?_, ?_⟩
  · rw [impacto_top_eq]
    exact List.pairwise_map.mpr
      (List.Pairwise.sublist (List.take_sublist limit _) hsorted')
  · rw [impacto_top_eq, List.length_map, List.length_take]
    exact min_le_left _ _
  · intro e he
    rw [impacto_top_eq] at he
    obtain ⟨pair, hpair, rfl⟩ := List.mem_map.mp he
    have hpair2 : pair ∈ sortB (fun a b => decide (b.2 ≤ a.2))
        (group_sum ((contas.filter (fun r => month_expr r.data == some comp)).map
          (fun r => (r.id_prest, numeric_expr r.valor)))) :=
      List.take_subset limit _ hpair
    have hpair3 : pair ∈ group_sum ((contas.filter
        (fun r => month_expr r.data == some comp)).map
        (fun r => (r.id_prest, numeric_expr r.valor))) :=
      (sortB_perm _ _).mem_iff.mp hpair2
    obtain ⟨k, v⟩ := pair
    have hv := group_sum_mem _ k v hpair3
    constructor
    · show v = prest_custo comp k contas
      rw [hv, filterOfMap, List.map_map, List.filter_filter]
      unfold prest_custo
      rw [List.filter_congr (fun r _ => Bool.and_comm (r.id_prest == k)
        (month_expr r.data == some comp))]
      rfl
    · rfl

/-- Witness for C6 (amended): membership hypothesis discharged at a concrete
single-provider request. -/
theorem C6_ranking_sorted_desc_witness :
    List.Pairwise (fun a b : ImpactoItem => b.custo ≤ a.custo)
      (kpi_prestador_impacto "2024-01" 10 [⟨"2024-01-05", "7", "B1", "P9"⟩] [] []).top ∧
    (kpi_prestador_impacto "2024-01" 10 [⟨"2024-01-05", "7", "B1", "P9"⟩] [] []).top.length ≤
      10 ∧
    (ImpactoItem.custo ⟨"P9", none, List.sum [numeric_expr "7"], none⟩ =
      prest_custo "2024-01" "P9" [⟨"2024-01-05", "7", "B1", "P9"⟩] ∧
      ImpactoItem.nome ⟨"P9", none, List.sum [numeric_expr "7"], none⟩ =
        (([] : List PrestRow).find? (fun p => p.id == "P9")).map PrestRow.nome) :=
  ⟨(C6_ranking_sorted_desc "2024-01" 10 [⟨"2024-01-05", "7", "B1", "P9"⟩] [] []).1,
   (C6_ranking_sorted_desc "2024-01" 10 [⟨"2024-01-05", "7", "B1", "P9"⟩] [] []).2.1,
   (C6_ranking_sorted_desc "2024-01" 10 [⟨"2024-01-05", "7", "B1", "P9"⟩] [] []).2.2
     ⟨"P9", none, List.sum [numeric_expr "7"], none⟩ (List.mem_singleton_self _)⟩

theorem find_in_keys_map (sumf : String → ℚ) (k : String) :
    ∀ keys : List String,
      (keys.map (fun kk => (kk, sumf kk))).find? (fun e => e.1 == k) =
        (if k ∈ keys then some (k, sumf k) else none)
  | [] => by simp
  | a :: t => by
    by_cases ha : a = k
    · subst ha
      rw [List.map_cons, List.find?_cons_of_pos _ (by simp), if_pos (List.mem_cons_self a t)]
    · rw [List.map_cons, List.find?_cons_of_neg _ (by simp [ha]), find_in_keys_map sumf k t]
      by_cases hm : k ∈ t
      · rw [if_pos hm, if_pos (List.mem_cons_of_mem a hm)]
      · rw [if_neg hm, if_neg (fun hc => by
          rcases List.mem_cons.mp hc with h | h
          · exact ha h.symm
          · exact hm h)]

theorem group_sum_keys (entries : List (String × ℚ)) :
    (group_sum entries).map Prod.fst = (entries.map Prod.fst).dedup := by
  unfold group_sum
  rw [List.map_map]
  exact List.map_id _

theorem group_sum_lookup (entries : List (String × ℚ)) (k : String) :
    (((group_sum entries).find? (fun e => e.1 == k)).map Prod.snd).getD 0 =
      ((entries.filter (fun e => e.1 == k)).map Prod.snd).sum := by
  unfold group_sum
  rw [find_in_keys_map (fun kk => ((entries.filter (fun e => e.1 == kk)).map Prod.snd).sum) k]
  by_cases hk : k ∈ (entries.map Prod.fst).dedup
  · rw [if_pos hk]
    rfl
  · rw [if_neg hk]
    have hfe : entries.filter (fun e => e.1 == k) = [] := by
      apply List.filter_eq_nil_iff.mpr
      intro e he hbe
      exact hk (List.mem_dedup.mpr (List.mem_map.mpr
        ⟨e, he, by simpa using hbe⟩))
    rw [hfe]
    rfl

theorem kpi_sin_por_faixa_ok (t : SDate) (comp bins : String) (contas : List ContaRow)
    (mens : List MensRow) (benefs : List BenefRow) (ym : Nat × Nat)
    (faixas : List (Nat × Option Nat × String))
    (h1 : strptime_ym comp = some ym) (h2 : parse_bins bins = some faixas) :
    kpi_sin_por_faixa t comp bins contas mens benefs = Except.ok
      { competencia := comp
        bins := faixas.map (fun f => f.2.2)
        itens := sortB (fun x z =>
            decide (order_key (faixas.map (fun f => f.2.2) ++ ["OUTROS"]) x.faixa ≤
              order_key (faixas.map (fun f => f.2.2) ++ ["OUTROS"]) z.faixa))
          ((sortB (fun a b => !(strLt b a))
            (((group_sum (faixa_entries_conta faixas ym.1 comp contas benefs)).map Prod.fst ++
              (group_sum (faixa_entries_mens faixas ym.1 comp mens benefs)).map
                Prod.fst).dedup)).map
            (faixa_item_of (group_sum (faixa_entries_conta faixas ym.1 comp contas benefs))
              (group_sum (faixa_entries_mens faixas ym.1 comp mens benefs)))) } := by
  unfold kpi_sin_por_faixa
  rw [h1, h2]

/-- C5 (amended): in `kpi_sin_por_faixa`, exactly the bracket labels with at
least one joined cost or premium row in the window appear in `itens` — each
with its summed cost and summed premium — while a declared bracket with no
rows is absent from `itens` and is echoed only in `bins`; the spec scenario
(ages `[10, 19, 65]`, costs `[50, 70, 30]`, spec `"0-18,19-59,60+"`) yields
exactly the cost mapping `0-18 ↦ 50, 19-59 ↦ 70, 60+ ↦ 30`. -/
theorem C5_brackets_scenario_and_bins :
    kpi_sin_por_faixa ⟨2026, 10, 12⟩ "2024-01" "0-18,19-59,60+"
      [⟨"2024-01-15", "50", "B1", "P1"⟩, ⟨"2024-01-16", "70", "B2", "P1"⟩,
        ⟨"2024-01-17", "30", "B3", "P1"⟩] []
      [⟨"B1", "2014-06-15"⟩, ⟨"B2", "2005-03-10"⟩, ⟨"B3", "1959-07-01"⟩] =
    Except.ok ⟨"2024-01", ["0-18", "19-59", "60+"],
      [⟨"0-18", 50, 0, none⟩, ⟨"19-59", 70, 0, none⟩, ⟨"60+", 30, 0, none⟩]⟩ ∧
    (∀ t comp bins contas mens benefs ym faixas,
      strptime_ym comp = some ym → parse_bins bins = some faixas →
      ∃ out, kpi_sin_por_faixa t comp bins contas mens benefs = Except.ok out ∧
        out.bins = faixas.map (fun f => f.2.2) ∧ out.competencia = comp ∧
        (∀ it ∈ out.itens,
          (it.faixa ∈ (faixa_entries_conta faixas ym.1 comp contas benefs).map Prod.fst ++
              (faixa_entries_mens faixas ym.1 comp mens benefs).map Prod.fst) ∧
          it.custo = (((faixa_entries_conta faixas ym.1 comp contas benefs).filter
            (fun e => e.1 == it.faixa)).map Prod.snd).sum ∧
          it.receita = (((faixa_entries_mens faixas ym.1 comp mens benefs).filter
            (fun e => e.1 == it.faixa)).map Prod.snd).sum) ∧
        (∀ k, k ∈ (faixa_entries_conta faixas ym.1 comp contas benefs).map Prod.fst ++
            (faixa_entries_mens faixas ym.1 comp mens benefs).map Prod.fst →
          k ∈ out.itens.map FaixaItem.faixa)) := by
  constructor
  · have h : kpi_sin_por_faixa ⟨2026, 10, 12⟩ "2024-01" "0-18,19-59,60+"
        [⟨"2024-01-15", "50", "B1", "P1"⟩, ⟨"2024-01-16", "70", "B2", "P1"⟩,
          ⟨"2024-01-17", "30", "B3", "P1"⟩] []
        [⟨"B1", "2014-06-15"⟩, ⟨"B2", "2005-03-10"⟩, ⟨"B3", "1959-07-01"⟩] =
      Except.ok ⟨"2024-01", ["0-18", "19-59", "60+"],
        [⟨"0-18", List.sum [numeric_expr "50"], 0, none⟩,
          ⟨"19-59", List.sum [numeric_expr "70"], 0, none⟩,
          ⟨"60+", List.sum [numeric_expr "30"], 0, none⟩]⟩ := rfl
    rw [h]
    simp [show numeric_expr "50" = (50 : ℚ) from rfl,
      show numeric_expr "70" = (70 : ℚ) from rfl,
      show numeric_expr "30" = (30 : ℚ) from rfl]
  · intro t comp bins contas mens benefs ym faixas h1 h2
    rw [kpi_sin_por_faixa_ok t comp bins contas mens benefs ym faixas h1 h2]
    refine ⟨_, rfl, rfl, rfl, ?_, ?_⟩
    · intro it hit
      have hit0 := (sortB_perm _ _).mem_iff.mp hit
      obtain ⟨fx, hfx, rfl⟩ := List.mem_map.mp hit0
      have hfx1 := (sortB_perm _ _).mem_iff.mp hfx
      have hfx2 := List.mem_dedup.mp hfx1
      refine ⟨?_, ?_, ?_⟩
      · rcases List.mem_append.mp hfx2 with h | h
        · refine List.mem_append_left _ ?_
          rw [group_sum_keys] at h
          exact List.mem_dedup.mp h
        · refine List.mem_append_right _ ?_
          rw [group_sum_keys] at h
          exact List.mem_dedup.mp h
      · exact group_sum_lookup _ fx
      · exact group_sum_lookup _ fx
    · intro k hk
      have hD : k ∈ (((group_sum (faixa_entries_conta faixas ym.1 comp contas benefs)).map
          Prod.fst ++
          (group_sum (faixa_entries_mens faixas ym.1 comp mens benefs)).map
            Prod.fst)).dedup := by
        rw [List.mem_dedup, List.mem_append, group_sum_keys, group_sum_keys,
          List.mem_dedup, List.mem_dedup]
        exact List.mem_append.mp hk
      have htodos := (sortB_perm (fun a b => !(strLt b a)) _).mem_iff.mpr hD
      have hitem := List.mem_map_of_mem
        (faixa_item_of (group_sum (faixa_entries_conta faixas ym.1 comp contas benefs))
          (group_sum (faixa_entries_mens faixas ym.1 comp mens benefs))) htodos
      have hsorted := (sortB_perm (fun x z : FaixaItem =>
          decide (order_key (faixas.map (fun f => f.2.2) ++ ["OUTROS"]) x.faixa ≤
            order_key (faixas.map (fun f => f.2.2) ++ ["OUTROS"]) z.faixa))
        _).mem_iff.mpr hitem
      exact List.mem_map.mpr ⟨_, hsorted, rfl⟩

/-- Witness for C5 (amended): hypotheses discharged at a concrete request
with one joined cost row. -/
theorem C5_brackets_scenario_and_bins_witness :
    ∃ out, kpi_sin_por_faixa ⟨2026, 10, 12⟩ "2024-01" "0-18,60+"
        [⟨"2024-01-15", "50", "B1", "P1"⟩] [] [⟨"B1", "2014-06-15"⟩] = Except.ok out ∧
      out.bins = ([(0, some 18, "0-18"), (60, none, "60+")] :
        List (Nat × Option Nat × String)).map (fun f => f.2.2) ∧
      out.competencia = "2024-01" ∧
      (∀ it ∈ out.itens,
        (it.faixa ∈ (faixa_entries_conta [(0, some 18, "0-18"), (60, none, "60+")] 2024
            "2024-01" [⟨"2024-01-15", "50", "B1", "P1"⟩] [⟨"B1", "2014-06-15"⟩]).map
              Prod.fst ++
          (faixa_entries_mens [(0, some 18, "0-18"), (60, none, "60+")] 2024 "2024-01" []
            [⟨"B1", "2014-06-15"⟩]).map Prod.fst) ∧
        it.custo = (((faixa_entries_conta [(0, some 18, "0-18"), (60, none, "60+")] 2024
            "2024-01" [⟨"2024-01-15", "50", "B1", "P1"⟩] [⟨"B1", "2014-06-15"⟩]).filter
          (fun e => e.1 == it.faixa)).map Prod.snd).sum ∧
        it.receita = (((faixa_entries_mens [(0, some 18, "0-18"), (60, none, "60+")] 2024
            "2024-01" [] [⟨"B1", "2014-06-15"⟩]).filter
          (fun e => e.1 == it.faixa)).map Prod.snd).sum) ∧
      (∀ k, k ∈ (faixa_entries_conta [(0, some 18, "0-18"), (60, none, "60+")] 2024
            "2024-01" [⟨"2024-01-15", "50", "B1", "P1"⟩] [⟨"B1", "2014-06-15"⟩]).map
              Prod.fst ++
          (faixa_entries_mens [(0, some 18, "0-18"), (60, none, "60+")] 2024 "2024-01" []
            [⟨"B1", "2014-06-15"⟩]).map Prod.fst →
        k ∈ out.itens.map FaixaItem.faixa) :=
  C5_brackets_scenario_and_bins.2 ⟨2026, 10, 12⟩ "2024-01" "0-18,60+"
    [⟨"2024-01-15", "50", "B1", "P1"⟩] [] [⟨"B1", "2014-06-15"⟩] (2024, 1)
    [(0, some 18, "0-18"), (60, none, "60+")] rfl rfl
